import Mathlib

/-!
Shallow embedding of the books_manager service (src/auth.py, src/main.py,
src/schemas.py, src/database.py) and proofs about its behaviour.

Modelling conventions:
* Times are unix seconds as `Int`.
* A JWT is modelled as its decoded payload (`sub`, `exp`) together with the
  secret it was signed with; `jwtDecode` models the external `python-jose`
  library by its JWT contract (RFC 7519 / spec section 4.1): the signature
  verifies iff the signing secret equals the verification key, and the token
  is rejected with `ExpiredSignatureError` once the check time has reached
  the embedded expiry.
* The module-level mutable state of src/main.py (`users`, `event_queue`, the
  SQLite store) is passed and returned explicitly: each handler takes the
  state it reads and returns the state it leaves behind, so that "raise
  before mutating" is visible as returning the input state unchanged.
* `datetime.date` values are opaque to every operation modelled here, so
  they are carried as their ISO strings.
-/

namespace BooksManager

/-- Decoded JWT claims: the fields `create_access_token` puts in
(`{"sub": ..., "exp": ...}`). -/
structure TokenPayload where
  sub : String
  exp : Int
  deriving Repr, DecidableEq

/-- A signed token: its claims plus the secret it was signed with. -/
structure Token where
  payload : TokenPayload
  secret : String
  deriving Repr, DecidableEq

/-- Errors raised by the external jose library: `ExpiredSignatureError`
(a subclass of `JWTError`) and every other `JWTError`. -/
inductive JwtError where
  | expiredSignature
  | jwtError
  deriving Repr, DecidableEq

/-- src/auth.py: `SECRET_KEY = "your-secret-key"`. -/
def SECRET_KEY : String := "your-secret-key"

/-- src/auth.py: `ACCESS_TOKEN_EXPIRE_MINUTES = 30`. -/
def ACCESS_TOKEN_EXPIRE_MINUTES : Int := 30

/-- src/auth.py `create_access_token`: the expiry is the issue time plus
30 minutes, and the claims passed in are `{"sub": username}`. -/
def create_access_token (sub : String) (now : Int) : Token :=
  { payload := { sub := sub, exp := now + ACCESS_TOKEN_EXPIRE_MINUTES * 60 },
    secret := SECRET_KEY }

/-- Model of the external `jose.jwt.decode(token, key, algorithms=[...])`:
fails with a generic `JWTError` when the signature does not verify against
`key`, with `ExpiredSignatureError` when the check time `now` has reached
the embedded expiry, and otherwise returns the claims. -/
def jwtDecode (token : Token) (key : String) (now : Int) :
    Except JwtError TokenPayload :=
  if token.secret ≠ key then .error .jwtError
  else if token.payload.exp ≤ now then .error .expiredSignature
  else .ok token.payload

/-- The error value FastAPI's `HTTPException` carries: status code, detail
string, and the optional `WWW-Authenticate` response header. -/
structure HTTPError where
  status_code : Nat
  detail : String
  www_authenticate : Option String := none
  deriving Repr, DecidableEq

/-- src/main.py `get_current_user` (lines 60-74): decode the bearer token,
read `payload.get("sub")`, reject a falsy subject with 401, map
`ExpiredSignatureError` and `JWTError` to their 401 responses; on success
return the subject.  Note that the function never consults the `users`
dictionary. -/
def get_current_user (token : Token) (now : Int) : Except HTTPError String :=
  match jwtDecode token SECRET_KEY now with
  | .ok payload =>
    let username := payload.sub
    if username = "" then
      .error { status_code := 401, detail := "Invalid token or user does not exist" }
    else
      .ok username
  | .error .expiredSignature =>
    .error { status_code := 401, detail := "Token has expired" }
  | .error .jwtError =>
    .error { status_code := 401, detail := "Invalid token" }

/-- src/schemas.py `UserSchema`. -/
structure UserSchema where
  username : String
  password : String
  deriving Repr, DecidableEq

/-- The module-level `users` dict of src/main.py, as an association list
from usernames to stored passwords. -/
abbrev Users := List (String × String)

/-- src/main.py `register` (lines 84-89): 400 if the username is already a
key of `users`, otherwise store the password and return the success
message.  The returned `Users` is the state after the call. -/
def register (users : Users) (user : UserSchema) :
    Except HTTPError String × Users :=
  if (users.lookup user.username).isSome then
    (.error { status_code := 400, detail := "Username already registered" }, users)
  else
    (.ok "User registered successfully", (user.username, user.password) :: users)

/-- The single 401 that src/main.py `login` raises on any credential
failure. -/
def loginError : HTTPError :=
  { status_code := 401, detail := "Incorrect username or password",
    www_authenticate := some "Bearer" }

/-- src/main.py `login` (lines 91-101): `users.get(username)` is falsy
(absent user, or an empty stored password) or the submitted password
differs → the one shared 401; otherwise issue a token for the
username. -/
def login (users : Users) (form_username form_password : String) (now : Int) :
    Except HTTPError Token :=
  match users.lookup form_username with
  | none => .error loginError
  | some user_password =>
    if user_password = "" ∨ form_password ≠ user_password then
      .error loginError
    else
      .ok (create_access_token form_username now)

/-- src/schemas.py `BookCreateSchema` (dates carried as their ISO
strings, opaque to every operation here). -/
structure BookCreateSchema where
  title : String
  author : String
  published_date : String
  summary : String
  genre : String
  deriving Repr, DecidableEq

/-- A stored `Book` row: the create fields plus the storage-assigned id
(src/schemas.py `BookSchema` / the `models.Book` ORM row). -/
structure Book where
  id : Int
  title : String
  author : String
  published_date : String
  summary : String
  genre : String
  deriving Repr, DecidableEq

/-- The SQLite store behind SessionLocal, as the spec's external storage
collaborator: the committed rows in insertion order, plus the next id the
autoincrement primary key will assign (SQLite starts at 1). -/
structure DB where
  books : List Book
  next_id : Int
  deriving Repr, DecidableEq

/-- Storage well-formedness: ids are positive and below the next id to be
assigned (so a fresh insert never collides with an existing row). -/
def DB.WF (db : DB) : Prop :=
  0 < db.next_id ∧ ∀ b ∈ db.books, 0 < b.id ∧ b.id < db.next_id

/-- The paginated listing `paginate(db.query(Book))` returns, and the
`Page[BookSchema](...)` wrapper built by hand in the by-id branch. -/
structure Page where
  items : List Book
  total : Nat
  page : Nat
  size : Nat
  deriving Repr, DecidableEq

/-- The external fastapi_pagination collaborator, per spec section 4.5: the
requested page-sized slice of the rows in insertion order, with the total
row count. -/
def paginate (books : List Book) (page size : Nat) : Page :=
  { items := (books.drop ((page - 1) * size)).take size,
    total := books.length, page := page, size := size }

/-- The event queue (`event_queue = asyncio.Queue()`), oldest message
first. -/
abbrev EventQueue := List String

/-- The 404 `update_book`, `delete_book` and the by-id branch of
`get_books` raise. -/
def bookNotFound : HTTPError := { status_code := 404, detail := "Book not found" }

/-- A row carrying the five create fields of `r` under id `nid`: what
`Book(title=..., author=..., ...)` plus the assigned primary key holds
after `add_book`, and equally what a row holds after `update_book`
overwrites every create field. -/
def mkBook (nid : Int) (r : BookCreateSchema) : Book :=
  { id := nid, title := r.title, author := r.author,
    published_date := r.published_date, summary := r.summary, genre := r.genre }

@[simp] theorem mkBook_id (nid : Int) (r : BookCreateSchema) :
    (mkBook nid r).id = nid := rfl

@[simp] theorem mkBook_title (nid : Int) (r : BookCreateSchema) :
    (mkBook nid r).title = r.title := rfl

/-- src/main.py `add_book` (lines 103-109): build a row from the request
fields, commit it (storage assigns the id), publish
`"New book added: {title}"`, return the row. -/
def add_book (db : DB) (queue : EventQueue) (request : BookCreateSchema) :
    Book × DB × EventQueue :=
  let new_book : Book := mkBook db.next_id request
  (new_book,
   { books := db.books ++ [new_book], next_id := db.next_id + 1 },
   queue ++ ["New book added: " ++ new_book.title])

/-- src/main.py `get_books` (lines 111-121): the branch condition is
Python's `if id:` — truthy only for a present, nonzero id.  When truthy,
look the row up (`.filter(Book.id == id).first()`), 404 if absent, publish
`"Book found: {title}"` and return a one-item page with `total=1`;
otherwise (id omitted, or id equal to the falsy `0`) return the paginated
listing and publish nothing.  Reads never change the store, so only the
queue is returned as state. -/
def get_books (db : DB) (queue : EventQueue) (id : Option Int)
    (page size : Nat) : Except HTTPError Page × EventQueue :=
  match id with
  | some i =>
    if i ≠ 0 then
      match db.books.find? (fun b => b.id == i) with
      | none => (.error bookNotFound, queue)
      | some book =>
        (.ok { items := [book], total := 1, page := 1, size := 1 },
         queue ++ ["Book found: " ++ book.title])
    else
      (.ok (paginate db.books page size), queue)
  | none => (.ok (paginate db.books page size), queue)

/-- Replace the first row satisfying `p` by `f` of it, the way mutating
the row object returned by `.first()` and committing does. -/
def updateFirst (p : Book → Bool) (f : Book → Book) : List Book → List Book
  | [] => []
  | b :: bs => if p b then f b :: bs else b :: updateFirst p f bs

/-- src/main.py `update_book` (lines 124-136): look the row up, 404 if
absent (nothing mutated), otherwise overwrite every create field, commit,
publish `"Book updated: {title}"` (the new title), return the row. -/
def update_book (db : DB) (queue : EventQueue) (id : Int)
    (request : BookCreateSchema) :
    Except HTTPError Book × DB × EventQueue :=
  match db.books.find? (fun b => b.id == id) with
  | none => (.error bookNotFound, db, queue)
  | some book =>
    let updated : Book := mkBook book.id request
    (.ok updated,
     { db with books := updateFirst (fun b => b.id == id) (fun _ => updated) db.books },
     queue ++ ["Book updated: " ++ updated.title])

/-- src/main.py `delete_book` (lines 138-146): look the row up, 404 if
absent (nothing mutated), otherwise delete that row, commit, publish
`"Book deleted: {title}"`, return the confirmation message. -/
def delete_book (db : DB) (queue : EventQueue) (id : Int) :
    Except HTTPError String × DB × EventQueue :=
  match db.books.find? (fun b => b.id == id) with
  | none => (.error bookNotFound, db, queue)
  | some book =>
    (.ok "Book deleted successfully",
     { db with books := db.books.eraseP (fun b => b.id == id) },
     queue ++ ["Book deleted: " ++ book.title])

/-!
The event bus.  `event_queue` is a single shared `asyncio.Queue`; handlers
publish with `put`, and each `/events` subscriber's generator repeatedly
`get`s.  We model an interleaved execution as a trace of completed queue
operations: a `put m` (which always succeeds immediately — the queue is
unbounded) and a `get c` by consumer `c` (which the scheduler completes
only when a message is available; a `get` against an empty queue is still
waiting and delivers nothing).
-/

/-- One completed operation on the shared `asyncio.Queue`. -/
inductive QueueOp where
  | put (m : String)
  | get (consumer : Nat)
  deriving Repr, DecidableEq

/-- Run a trace of queue operations against a queue: returns the remaining
queue and the deliveries `(consumer, message)` in the order they
happened.  `put` appends at the tail; `get` removes the head, and
delivers nothing when the queue is empty (the consumer keeps waiting). -/
def runOps : List QueueOp → List String → List String × List (Nat × String)
  | [], q => (q, [])
  | .put m :: ops, q => runOps ops (q ++ [m])
  | .get _ :: ops, [] => runOps ops []
  | .get c :: ops, m :: rest =>
    let r := runOps ops rest
    (r.1, (c, m) :: r.2)

/-- The messages a trace publishes, in publish order. -/
def putsOf : List QueueOp → List String
  | [] => []
  | .put m :: ops => m :: putsOf ops
  | .get _ :: ops => putsOf ops

/-- `sub` occurs inside `s` as a contiguous substring. -/
def strContains (s sub : String) : Prop :=
  ∃ a b, a ++ sub.data ++ b = s.data

/-! ## Claims -/

/-- Claim C1 is false of the code: `get_current_user` never consults the
user directory.  With an empty `users` dict, a token for "alice" whose
signature verifies and whose expiry has not passed is accepted and
authorization returns "alice", instead of failing with an UnknownSubject
401 as the claim requires. -/
theorem C1_counterexample :
    List.lookup "alice" ([] : Users) = none ∧
    jwtDecode (create_access_token "alice" 0) SECRET_KEY 10 =
      .ok { sub := "alice", exp := 1800 } ∧
    get_current_user (create_access_token "alice" 0) 10 = .ok "alice" := by
  refine ⟨rfl, ?_, ?_⟩ <;> rfl

/-- Claim C1 amended: for every token whose signature verifies against the
service secret, whose expiry has not passed, and whose subject claim is
non-empty, authorization succeeds with that subject — irrespective of the
user directory, which `get_current_user` never reads (there is no
UnknownSubject check in the code). -/
theorem C1_no_directory_check (sub : String) (issued now : Int)
    (hsub : sub ≠ "") (hnow : now < issued + 30 * 60) :
    get_current_user (create_access_token sub issued) now = .ok sub := by
  simp only [get_current_user, jwtDecode, create_access_token,
    ACCESS_TOKEN_EXPIRE_MINUTES]
  rw [if_neg (by simp), if_neg (by omega)]
  simp [hsub]

/-- Concrete instance of `C1_no_directory_check`. -/
theorem C1_no_directory_check_witness :
    get_current_user (create_access_token "alice" 0) 10 = .ok "alice" :=
  C1_no_directory_check "alice" 0 10 (by decide) (by decide)

/-- Claim C2: a token issued for `u` at time `T` embeds subject `u`;
its signature-and-expiry validation succeeds at every check time
`T ≤ Tp < T + 30min` and fails with the Expired error for every
`Tp ≥ T + 30min`. -/
theorem C2_token_window (u : String) (T Tp : Int) :
    (create_access_token u T).payload.sub = u ∧
    (T ≤ Tp → Tp < T + 30 * 60 →
      jwtDecode (create_access_token u T) SECRET_KEY Tp =
        .ok { sub := u, exp := T + 30 * 60 }) ∧
    (T + 30 * 60 ≤ Tp →
      jwtDecode (create_access_token u T) SECRET_KEY Tp =
        .error .expiredSignature) := by
  refine ⟨rfl, ?_, ?_⟩ <;>
    simp only [jwtDecode, create_access_token, ACCESS_TOKEN_EXPIRE_MINUTES]
  · intro _ h2
    rw [if_neg (by simp), if_neg (by omega)]
  · intro h1
    rw [if_neg (by simp), if_pos (by omega)]

/-- Concrete instance of `C2_token_window`: the window's interior and its
right endpoint. -/
theorem C2_token_window_witness :
    jwtDecode (create_access_token "alice" 0) SECRET_KEY 100 =
      .ok { sub := "alice", exp := 1800 } ∧
    jwtDecode (create_access_token "alice" 0) SECRET_KEY 1800 =
      .error .expiredSignature :=
  ⟨(C2_token_window "alice" 0 100).2.1 (by decide) (by decide),
   (C2_token_window "alice" 0 1800).2.2 (by decide)⟩

/-- Claim C3: registering a fresh username succeeds and stores the
password; a second registration of the same username fails with the 400
UsernameTaken error, and the stored password is untouched by the failed
call. -/
theorem C3_register_exactly_once (users : Users) (u p p2 : String)
    (h : users.lookup u = none) :
    (register users ⟨u, p⟩).1 = .ok "User registered successfully" ∧
    (register users ⟨u, p⟩).2.lookup u = some p ∧
    (register (register users ⟨u, p⟩).2 ⟨u, p2⟩).1 =
      .error { status_code := 400, detail := "Username already registered" } ∧
    (register (register users ⟨u, p⟩).2 ⟨u, p2⟩).2.lookup u = some p := by
  simp [register, h, List.lookup]

/-- Concrete instance of `C3_register_exactly_once`. -/
theorem C3_register_exactly_once_witness :
    (register [] ⟨"alice", "pw1"⟩).1 = .ok "User registered successfully" ∧
    (register [] ⟨"alice", "pw1"⟩).2.lookup "alice" = some "pw1" ∧
    (register (register [] ⟨"alice", "pw1"⟩).2 ⟨"alice", "pw2"⟩).1 =
      .error { status_code := 400, detail := "Username already registered" } ∧
    (register (register [] ⟨"alice", "pw1"⟩).2 ⟨"alice", "pw2"⟩).2.lookup "alice" =
      some "pw1" :=
  C3_register_exactly_once [] "alice" "pw1" "pw2" rfl

/-- Claim C4: a login attempt with a registered username and a wrong
password and a login attempt with an unregistered username produce the
identical error value — same 401 status, same detail, same
`WWW-Authenticate: Bearer` header — so the two causes are
indistinguishable to the client. -/
theorem C4_login_uniform_failure (users : Users) (u1 p1 wrong u2 p2 : String)
    (h1 : users.lookup u1 = some p1) (hw : wrong ≠ p1)
    (h2 : users.lookup u2 = none) (now now2 : Int) :
    login users u1 wrong now = .error loginError ∧
    login users u2 p2 now2 = .error loginError ∧
    loginError.status_code = 401 ∧
    loginError.detail = "Incorrect username or password" ∧
    loginError.www_authenticate = some "Bearer" := by
  refine ⟨?_, ?_, rfl, rfl, rfl⟩
  · simp [login, h1, hw]
  · simp [login, h2]

/-- A sample stored row, for concrete instances. -/
def duneBook : Book :=
  { id := 1, title := "Dune", author := "Herbert",
    published_date := "1965-08-01", summary := "Spice", genre := "SciFi" }

/-- A sample create payload, for concrete instances. -/
def otherReq : BookCreateSchema :=
  { title := "Dune Messiah", author := "Herbert",
    published_date := "1969-07-15", summary := "Sequel", genre := "SciFi" }

/-- A sample store holding `duneBook`, for concrete instances. -/
def sampleDB : DB := { books := [duneBook], next_id := 2 }

/-- Concrete instance of `C4_login_uniform_failure`. -/
theorem C4_login_uniform_failure_witness :
    login [("alice", "pw1")] "alice" "bad" 0 = .error loginError ∧
    login [("alice", "pw1")] "bob" "pw1" 0 = .error loginError :=
  ⟨(C4_login_uniform_failure [("alice", "pw1")] "alice" "pw1" "bad" "bob" "pw1"
      (by decide) (by decide) (by decide) 0 0).1,
   (C4_login_uniform_failure [("alice", "pw1")] "alice" "pw1" "bad" "bob" "pw1"
      (by decide) (by decide) (by decide) 0 0).2.1⟩

/-- Claim C6 is false of the code at `id = 0`: with an empty store no book
with id 0 exists, yet the call does not fail with the 404 — Python's
`if id:` treats 0 as falsy and takes the listing branch. -/
theorem C6_counterexample :
    (∀ b ∈ (DB.mk [] 1).books, b.id ≠ 0) ∧
    get_books (DB.mk [] 1) [] (some 0) 1 10 ≠ (.error bookNotFound, []) ∧
    get_books (DB.mk [] 1) [] (some 0) 1 10 =
      (.ok { items := [], total := 0, page := 1, size := 10 }, []) := by
  refine ⟨by simp, ?_, rfl⟩
  intro hcontra
  have h1 : (get_books (DB.mk [] 1) [] (some 0) 1 10).1 =
      Except.error bookNotFound := by rw [hcontra]
  simp [get_books, paginate] at h1

/-- Claim C6 amended: for every authorized getBooks call supplying a
NONZERO id, a stored book with that id yields the one-item page wrapper
with `total = 1` (plus the "Book found" notification), and an absent id
yields the 404 NotFound error.  (At `id = 0` the call instead takes the
listing branch — see `C6_counterexample` and claim C9.) -/
theorem C6_get_by_id_nonzero (db : DB) (queue : EventQueue) (i : Int)
    (page size : Nat) (hi : i ≠ 0) :
    (∀ book, db.books.find? (fun b => b.id == i) = some book →
      get_books db queue (some i) page size =
        (.ok { items := [book], total := 1, page := 1, size := 1 },
         queue ++ ["Book found: " ++ book.title])) ∧
    (db.books.find? (fun b => b.id == i) = none →
      get_books db queue (some i) page size = (.error bookNotFound, queue)) := by
  constructor
  · intro book hfind
    simp [get_books, hi, hfind]
  · intro hfind
    simp [get_books, hi, hfind]

/-- Concrete instance of `C6_get_by_id_nonzero`: hit and miss. -/
theorem C6_get_by_id_nonzero_witness :
    get_books sampleDB [] (some 1) 1 10 =
      (.ok { items := [duneBook], total := 1, page := 1, size := 1 },
       ["Book found: " ++ duneBook.title]) ∧
    get_books sampleDB [] (some 5) 1 10 = (.error bookNotFound, []) :=
  ⟨(C6_get_by_id_nonzero sampleDB [] 1 1 10 (by decide)).1 duneBook (by decide),
   (C6_get_by_id_nonzero sampleDB [] 5 1 10 (by decide)).2 (by decide)⟩

/-- Claim C9: a getBooks call with `id = 0` is handled by the listing
branch — it returns the paginated listing, never the 404 and never a
single-item page, enqueues nothing, and coincides with the call that
omits the id. -/
theorem C9_id_zero_lists (db : DB) (queue : EventQueue) (page size : Nat) :
    get_books db queue (some 0) page size =
      (.ok (paginate db.books page size), queue) ∧
    get_books db queue (some 0) page size = get_books db queue none page size := by
  constructor <;> simp [get_books]

/-- Claim C10: for an id absent from storage, `update_book` and
`delete_book` fail with the 404 and leave the store and the event queue
exactly as they were. -/
theorem C10_no_mutation_on_missing_id (db : DB) (queue : EventQueue) (i : Int)
    (req : BookCreateSchema) (h : ∀ b ∈ db.books, b.id ≠ i) :
    update_book db queue i req = (.error bookNotFound, db, queue) ∧
    delete_book db queue i = (.error bookNotFound, db, queue) := by
  have hf : db.books.find? (fun b => b.id == i) = none := by
    rw [List.find?_eq_none]
    intro b hb
    simpa using h b hb
  constructor <;> simp [update_book, delete_book, hf]

/-- A string contains its right append factor. -/
theorem strContains_append_right (s t : String) : strContains (s ++ t) t :=
  ⟨s.data, [], by simp [String.data_append]⟩

/-- Containment is stable under appending on the right. -/
theorem strContains_append_of (s t sub : String) (h : strContains s sub) :
    strContains (s ++ t) sub := by
  obtain ⟨a, b, hab⟩ := h
  exact ⟨a, b ++ t.data, by simp [String.data_append, ← hab]⟩

/-- A middle append factor is contained, also after a further append. -/
theorem strContains_of_split (pre mid post t : String) :
    strContains (pre ++ mid ++ post ++ t) mid := by
  have h := strContains_append_of (pre ++ mid ++ post) t mid
    ⟨pre.data, post.data, by simp [String.data_append]⟩
  simpa using h

/-- Claim C5: a successful create, update and delete each enqueue exactly
one notification — the queue after the call is the queue before it plus a
single string containing the book's title and the action word "added",
"updated" or "deleted" respectively; a listing-all call (no id) enqueues
nothing; a successful find-by-id call enqueues exactly one "found"
notification containing the title. -/
theorem C5_notifications (db : DB) (q : EventQueue) (req : BookCreateSchema)
    (i : Int) (page size : Nat) :
    ((add_book db q req).2.2 = q ++ ["New book added: " ++ req.title] ∧
      strContains ("New book added: " ++ req.title) req.title ∧
      strContains ("New book added: " ++ req.title) "added") ∧
    (∀ book, db.books.find? (fun b => b.id == i) = some book →
      (update_book db q i req).2.2 = q ++ ["Book updated: " ++ req.title] ∧
      strContains ("Book updated: " ++ req.title) req.title ∧
      strContains ("Book updated: " ++ req.title) "updated") ∧
    (∀ book, db.books.find? (fun b => b.id == i) = some book →
      (delete_book db q i).2.2 = q ++ ["Book deleted: " ++ book.title] ∧
      strContains ("Book deleted: " ++ book.title) book.title ∧
      strContains ("Book deleted: " ++ book.title) "deleted") ∧
    ((get_books db q none page size).2 = q) ∧
    (∀ book, i ≠ 0 → db.books.find? (fun b => b.id == i) = some book →
      (get_books db q (some i) page size).2 = q ++ ["Book found: " ++ book.title] ∧
      strContains ("Book found: " ++ book.title) book.title ∧
      strContains ("Book found: " ++ book.title) "found") := by
  have eAdded : ("New book " ++ "added" ++ ": " : String) = "New book added: " := by
    decide
  have eUpdated : ("Book " ++ "updated" ++ ": " : String) = "Book updated: " := by
    decide
  have eDeleted : ("Book " ++ "deleted" ++ ": " : String) = "Book deleted: " := by
    decide
  have eFound : ("Book " ++ "found" ++ ": " : String) = "Book found: " := by
    decide
  refine ⟨⟨by simp [add_book], strContains_append_right _ _, ?_⟩, ?_, ?_, ?_, ?_⟩
  · rw [← eAdded]
    exact strContains_of_split _ _ _ _
  · intro book hb
    refine ⟨by simp [update_book, hb], strContains_append_right _ _, ?_⟩
    rw [← eUpdated]
    exact strContains_of_split _ _ _ _
  · intro book hb
    refine ⟨by simp [delete_book, hb], strContains_append_right _ _, ?_⟩
    rw [← eDeleted]
    exact strContains_of_split _ _ _ _
  · simp [get_books]
  · intro book hi hb
    refine ⟨by simp [get_books, hi, hb], strContains_append_right _ _, ?_⟩
    rw [← eFound]
    exact strContains_of_split _ _ _ _

/-- Concrete instance of `C5_notifications`: the update, delete and
find-by-id branches exercised on the sample store. -/
theorem C5_notifications_witness :
    (update_book sampleDB [] 1 otherReq).2.2 = ["Book updated: " ++ otherReq.title] ∧
    (delete_book sampleDB [] 1).2.2 = ["Book deleted: " ++ duneBook.title] ∧
    (get_books sampleDB [] (some 1) 1 10).2 = ["Book found: " ++ duneBook.title] :=
  ⟨((C5_notifications sampleDB [] otherReq 1 1 10).2.1 duneBook (by decide)).1,
   ((C5_notifications sampleDB [] otherReq 1 1 10).2.2.1 duneBook (by decide)).1,
   ((C5_notifications sampleDB [] otherReq 1 1 10).2.2.2.2 duneBook (by decide)
      (by decide)).1⟩

/-- Conservation of the shared queue: after running any trace, the
delivered messages followed by the messages still queued are exactly the
initial queue followed by the published messages, in order. -/
theorem runOps_conservation (ops : List QueueOp) (q : List String) :
    ((runOps ops q).2.map Prod.snd) ++ (runOps ops q).1 = q ++ putsOf ops := by
  induction ops generalizing q with
  | nil => simp [runOps, putsOf]
  | cons op ops ih =>
    cases op with
    | put m => simpa [runOps, putsOf] using ih (q ++ [m])
    | get c =>
      cases q with
      | nil => simpa [runOps, putsOf] using ih []
      | cons m rest => simpa [runOps, putsOf] using ih rest

/-- Claim C8: over every interleaving of publishes and completed receives,
(1) the messages delivered — across all consumers together — followed by
the messages still queued are exactly the published messages in publish
order, so delivery is FIFO with no reordering, no loss, no duplication,
and each delivered message went to exactly one consumer; and (2) a
publish always completes immediately by appending to the tail of the
unbounded queue — it never blocks or fails. -/
theorem C8_fifo_exactly_once (ops : List QueueOp) :
    ((runOps ops []).2.map Prod.snd) ++ (runOps ops []).1 = putsOf ops ∧
    (∀ m q, runOps (.put m :: ops) q = runOps ops (q ++ [m])) :=
  ⟨by simpa using runOps_conservation ops [], fun _ _ => rfl⟩

/-- If the first row satisfying `p` is not in the front list, replacing it
happens entirely in the back list. -/
theorem updateFirst_append_right (p : Book → Bool) (f : Book → Book)
    (l₁ l₂ : List Book) (h : ∀ b ∈ l₁, ¬p b) :
    updateFirst p f (l₁ ++ l₂) = l₁ ++ updateFirst p f l₂ := by
  induction l₁ with
  | nil => rfl
  | cons a l ih =>
    have h1 : ¬p a := h a (List.mem_cons_self a l)
    have h2 : ∀ b ∈ l, ¬p b := fun b hb => h b (List.mem_cons_of_mem a hb)
    simp [updateFirst, h1, ih h2]

/-- The create → read → update → read → delete → read story of claim C7,
for a starting store `db` and queue `q`: the created row carries exactly
the payload fields plus a nonzero assigned id; reading it by that id
returns it in a one-item page; updating it with a second payload and
re-reading returns the new fields; deleting it and re-reading yields the
404 NotFound. -/
def CrudSpec (db : DB) (q : EventQueue) (req req2 : BookCreateSchema) : Prop :=
  ∃ book db1 q1, add_book db q req = (book, db1, q1) ∧
    book.id ≠ 0 ∧ book.title = req.title ∧ book.author = req.author ∧
    book.published_date = req.published_date ∧ book.summary = req.summary ∧
    book.genre = req.genre ∧
    get_books db1 q1 (some book.id) 1 10 =
      (.ok { items := [book], total := 1, page := 1, size := 1 },
       q1 ++ ["Book found: " ++ book.title]) ∧
    ∃ book2 db2 q2, update_book db1 q1 book.id req2 = (.ok book2, db2, q2) ∧
      book2.id = book.id ∧ book2.title = req2.title ∧ book2.author = req2.author ∧
      book2.published_date = req2.published_date ∧ book2.summary = req2.summary ∧
      book2.genre = req2.genre ∧
      get_books db2 q2 (some book.id) 1 10 =
        (.ok { items := [book2], total := 1, page := 1, size := 1 },
         q2 ++ ["Book found: " ++ book2.title]) ∧
      ∃ db3 q3, delete_book db2 q2 book.id =
          (.ok "Book deleted successfully", db3, q3) ∧
        get_books db3 q3 (some book.id) 1 10 = (.error bookNotFound, q3)

/-- Claim C7: on every well-formed store, create-then-read returns a
record field-equal to the payload plus a nonzero assigned id, update-
then-read returns the new fields, and delete-then-read returns the 404
NotFound. -/
theorem C7_crud_roundtrip (db : DB) (q : EventQueue) (req req2 : BookCreateSchema)
    (hwf : db.WF) : CrudSpec db q req req2 := by
  obtain ⟨hpos, hball⟩ := hwf
  have hne0 : db.next_id ≠ 0 := by omega
  have hnomatch : ∀ b ∈ db.books, ¬((b.id == db.next_id) = true) := by
    intro b hb
    have hlt := (hball b hb).2
    simp only [beq_iff_eq]
    omega
  have hnone : db.books.find? (fun b => b.id == db.next_id) = none :=
    List.find?_eq_none.2 hnomatch
  have hfind1 : (db.books ++ [mkBook db.next_id req]).find?
      (fun b => b.id == db.next_id) = some (mkBook db.next_id req) := by
    simp [List.find?_append, hnone]
  have hfind2 : (db.books ++ [mkBook db.next_id req2]).find?
      (fun b => b.id == db.next_id) = some (mkBook db.next_id req2) := by
    simp [List.find?_append, hnone]
  have hupdf : updateFirst (fun b => b.id == db.next_id)
      (fun _ => mkBook db.next_id req2) (db.books ++ [mkBook db.next_id req]) =
      db.books ++ [mkBook db.next_id req2] := by
    rw [updateFirst_append_right _ _ _ _ hnomatch]
    simp [updateFirst]
  have herase : (db.books ++ [mkBook db.next_id req2]).eraseP
      (fun b => b.id == db.next_id) = db.books := by
    rw [List.eraseP_append_right _ hnomatch]
    simp
  refine ⟨mkBook db.next_id req,
    ⟨db.books ++ [mkBook db.next_id req], db.next_id + 1⟩,
    q ++ ["New book added: " ++ req.title],
    rfl, hne0, rfl, rfl, rfl, rfl, rfl, ?_,
    mkBook db.next_id req2,
    ⟨db.books ++ [mkBook db.next_id req2], db.next_id + 1⟩,
    (q ++ ["New book added: " ++ req.title]) ++ ["Book updated: " ++ req2.title],
    ?_, rfl, rfl, rfl, rfl, rfl, rfl, ?_,
    ⟨db.books, db.next_id + 1⟩,
    ((q ++ ["New book added: " ++ req.title]) ++ ["Book updated: " ++ req2.title])
      ++ ["Book deleted: " ++ req2.title],
    ?_, ?_⟩
  · simp [get_books, hne0, hfind1]
  · simp [update_book, hfind1, hupdf]
  · simp [get_books, hne0, hfind2]
  · simp [delete_book, hfind2, herase]
  · simp [get_books, hne0, hnone]

/-- A sample create payload matching `duneBook`, for concrete
instances. -/
def duneReq : BookCreateSchema :=
  { title := "Dune", author := "Herbert",
    published_date := "1965-08-01", summary := "Spice", genre := "SciFi" }

/-- Concrete instance of `C7_crud_roundtrip`, starting from the empty
store. -/
theorem C7_crud_roundtrip_witness : CrudSpec ⟨[], 1⟩ [] duneReq otherReq :=
  C7_crud_roundtrip ⟨[], 1⟩ [] duneReq otherReq ⟨by decide, by simp⟩

/-- Concrete instance of `C10_no_mutation_on_missing_id`. -/
theorem C10_no_mutation_on_missing_id_witness :
    update_book sampleDB [] 2 otherReq = (.error bookNotFound, sampleDB, []) ∧
    delete_book sampleDB [] 2 = (.error bookNotFound, sampleDB, []) :=
  C10_no_mutation_on_missing_id sampleDB [] 2 otherReq (by decide)

end BooksManager
